import Mathlib

/-!
Shallow embedding of the nanoporter port-forward supervisor (portforward.go),
the pre-flight port-conflict resolver (portconflict.go) and the configuration
validator (config.go), with theorems checking the specification's claims.

Machine integers: Go `time.Duration` and `int` are int64 on the target
platform; we model them as `Int` with explicit two's-complement wrapping
where Go arithmetic can overflow.
-/

namespace Nanoporter

/-! ## Go int64 arithmetic -/

/-- Two's-complement wrap of an integer into the int64 range. -/
def int64Wrap (x : Int) : Int :=
  Int.emod (x + 2 ^ 63) (2 ^ 64) - 2 ^ 63

/-- Go `1 << n` evaluated in int64: shifting left n times by one with
wrap-around; for n ≥ 64 the result is 0. -/
def goShlOne (n : Nat) : Int :=
  if 64 ≤ n then 0 else int64Wrap (2 ^ n)

/-- Go int64 multiplication (wraps on overflow). -/
def goMulInt64 (x y : Int) : Int := int64Wrap (x * y)

/-- `time.Second` in nanoseconds. -/
def nsPerSecond : Int := 1000000000

/-- `calculateBackoff` from portforward.go:
```
if retryCount == 0 { return m.config.ReconnectDelay }
delay := time.Duration(1<<uint(retryCount)) * time.Second
if delay > 60*time.Second { delay = 60 * time.Second }
return delay
```
`uint(retryCount)` is the unsigned reinterpretation of the int64 retry
count; the shift and the multiplication by `time.Second` are int64
operations that wrap on overflow. Durations are in nanoseconds. -/
def calculateBackoff (reconnectDelay : Int) (retryCount : Int) : Int :=
  if retryCount = 0 then reconnectDelay
  else
    let delay := goMulInt64 (goShlOne (Int.toNat (Int.emod retryCount (2 ^ 64)))) nsPerSecond
    if 60 * nsPerSecond < delay then 60 * nsPerSecond else delay

/-! ## Data model -/

/-- `ForwardState` from portforward.go. `failed` is declared in the source
and never assigned. -/
inductive ForwardState where
  | starting
  | active
  | reconnecting
  | failed
  | stopped
deriving DecidableEq

/-- `ForwardConfig` from config.go (the optional `db_backup` record is
ignored by the core and omitted). `ns` is the YAML `namespace` field,
`type` is `"service"` or `"pod"`. -/
structure ForwardConfig where
  ns : String
  service : String
  type : String
  localPort : Int
  remotePort : Int
deriving DecidableEq

/-- The mutable fields of `PortForward` from portforward.go that the
supervisor state machine reads and writes (runtime handles — client,
restConfig, channels, context — and the backup-status fields are not part
of the state the claims are about). Timestamps are nanosecond clocks. -/
structure PortForward where
  config : ForwardConfig
  clusterName : String
  state : ForwardState
  error : String
  lastCheck : Int
  reconnectAt : Int
  retryCount : Int
deriving DecidableEq

/-- A record as `PortForwardManager.Initialize` creates it: `State:
StateStarting` and Go zero values for the remaining fields. -/
def initPortForward (cfg : ForwardConfig) (clusterName : String) : PortForward :=
  { config := cfg
    clusterName := clusterName
    state := ForwardState.starting
    error := ""
    lastCheck := 0
    reconnectAt := 0
    retryCount := 0 }

/-- `(*PortForward).setState`. -/
def setState (pf : PortForward) (s : ForwardState) : PortForward :=
  { pf with state := s }

/-- `(*PortForward).setError`. -/
def setError (pf : PortForward) (e : String) : PortForward :=
  { pf with error := e }

/-! ## The supervisor loop

`establishPortForward` blocks on the network; its control flow is decided
by which of its waits fires first. Each possibility is one
`EstablishOutcome`, carrying the error text the failed operation produced.
-/

/-- How one `establishPortForward` call resolves. -/
inductive EstablishOutcome where
  /-- `findPod` returned an error `e`; the call returns
  `"failed to find pod: " ++ e`. -/
  | findPodErr (e : String)
  /-- URL parsing, the SPDY round tripper or `portforward.New` failed with
  message `e` (each branch returns its own wrapped message, passed here
  already wrapped). -/
  | setupErr (e : String)
  /-- `errChan` fired before `readyChan`: the call returns that error
  unwrapped. -/
  | earlyErr (e : String)
  /-- 30 seconds elapsed before ready. -/
  | readyTimeout
  /-- Ready fired (Active entered, published); later `errChan` delivered a
  non-nil error `e`. -/
  | readyThenErr (e : String)
  /-- Ready fired; later `errChan` delivered nil. -/
  | readyThenClosed
  /-- Ready fired; later the context captured by the inner select was
  cancelled (shutdown, or a probe-triggered cancel): `close(stopChan)` and
  the call returns nil. -/
  | readyThenCtxDone
deriving DecidableEq

/-- The record mutation on the ready path of `establishPortForward`:
`setState(StateActive)`, `setError("")`, `RetryCount = 0`, then
`notifyUpdate`. -/
def activeEntry (pf : PortForward) : PortForward :=
  { pf with state := ForwardState.active, error := "", retryCount := 0 }

/-- `establishPortForward` from portforward.go: returns the mutated record,
the Go return value (`none` = nil error), and the snapshots it published on
the update channel, in order. -/
def establishPortForward (pf : PortForward) : EstablishOutcome → PortForward × Option String × List PortForward
  | EstablishOutcome.findPodErr e => (pf, some ("failed to find pod: " ++ e), [])
  | EstablishOutcome.setupErr e => (pf, some e, [])
  | EstablishOutcome.earlyErr e => (pf, some e, [])
  | EstablishOutcome.readyTimeout => (pf, some "timeout waiting for port-forward to be ready", [])
  | EstablishOutcome.readyThenErr e => (activeEntry pf, some ("port-forward error: " ++ e), [activeEntry pf])
  | EstablishOutcome.readyThenClosed => (activeEntry pf, some "port-forward closed unexpectedly", [activeEntry pf])
  | EstablishOutcome.readyThenCtxDone => (activeEntry pf, none, [activeEntry pf])

/-- One resolution of the suspension points of one `runPortForward` loop
iteration. -/
inductive LoopEvent where
  /-- The outer select found the record's current context already done. -/
  | ctxDoneAtTop
  /-- The default branch ran `establishPortForward`, which resolved as `o`;
  when the call returns an error, `shutdownDuringSleep` tells whether the
  backoff select was interrupted by `pf.ctx.Done()` instead of
  `time.After(delay)` elapsing. -/
  | attempt (o : EstablishOutcome) (shutdownDuringSleep : Bool)
deriving DecidableEq

/-- How a finite run of the supervisor loop ended. -/
inductive ExitKind where
  /-- `return` from the outer select's `ctx.Done` branch, after
  `setState(StateStopped)` and a publish. -/
  | stoppedAtTop
  /-- `return` from the backoff select's `ctx.Done` branch — no state
  change on this path. -/
  | shutdownInSleep
  /-- The event trace ran out with the loop still live. -/
  | eventsExhausted
deriving DecidableEq

/-- Result of running the supervisor loop over a finite event trace:
final record, how the loop ended, and every snapshot published on the
update channel, in order of production. -/
structure RunResult where
  pf : PortForward
  exitKind : ExitKind
  pubs : List PortForward
deriving DecidableEq

/-- `runPortForward` from portforward.go over an explicit event trace.
`reconnectDelay` is `m.config.ReconnectDelay`; `clock` is the wall clock in
nanoseconds, advanced by the backoff sleeps (the only delays the claims
measure). On an attempt error the loop runs, in source order:
`setError`, `setState(StateReconnecting)`, `notifyUpdate`, then
`delay := calculateBackoff(RetryCount)`, `ReconnectAt = now + delay`,
`RetryCount++`, then sleeps. -/
def runPortForward (reconnectDelay : Int) : PortForward → Int → List LoopEvent → RunResult
  | pf, _, [] => { pf := pf, exitKind := ExitKind.eventsExhausted, pubs := [] }
  | pf, _, LoopEvent.ctxDoneAtTop :: _ =>
      let pfS := setState pf ForwardState.stopped
      { pf := pfS, exitKind := ExitKind.stoppedAtTop, pubs := [pfS] }
  | pf, clock, LoopEvent.attempt o sd :: rest =>
      match establishPortForward pf o with
      | (pf1, none, pubs1) =>
          let r := runPortForward reconnectDelay pf1 clock rest
          { pf := r.pf, exitKind := r.exitKind, pubs := pubs1 ++ r.pubs }
      | (pf1, some e, pubs1) =>
          let pf3 := setState (setError pf1 e) ForwardState.reconnecting
          let delay := calculateBackoff reconnectDelay pf3.retryCount
          let pf4 := { pf3 with reconnectAt := clock + delay, retryCount := pf3.retryCount + 1 }
          match sd with
          | true =>
              { pf := pf4, exitKind := ExitKind.shutdownInSleep, pubs := pubs1 ++ [pf3] }
          | false =>
              let r := runPortForward reconnectDelay pf4 (clock + delay) rest
              { pf := r.pf, exitKind := r.exitKind, pubs := (pubs1 ++ [pf3]) ++ r.pubs }

/-- `checkHealth` from portforward.go, for one record on one tick: sets
`LastCheck`, snapshots the state, skips non-Active records, then dials the
local port (`dialOk` is the dial result). Returns the updated record and
whether the probe cancelled the record's current engine context (on a
failed dial it calls `pf.cancel()` and installs a fresh
context/cancel pair on the record). -/
def checkHealth (pf : PortForward) (now : Int) (dialOk : Bool) : PortForward × Bool :=
  let pf1 := { pf with lastCheck := now }
  if pf1.state ≠ ForwardState.active then (pf1, false)
  else if dialOk then (pf1, false)
  else (pf1, true)

/-! ## Concrete fixtures -/

/-- The spec's happy-path forward. -/
def cfgEx : ForwardConfig :=
  { ns := "default", service := "api", type := "service", localPort := 18080, remotePort := 80 }

/-- A record that has just entered Active. -/
def recActive : PortForward := activeEntry (initPortForward cfgEx "c1")

/-- A short realizable trace: a failed attempt, a recovered attempt that
later loses its engine, then shutdown. -/
def demoEvents : List LoopEvent :=
  [ LoopEvent.attempt (EstablishOutcome.findPodErr "pods not found") false
  , LoopEvent.attempt (EstablishOutcome.readyThenErr "connection reset") false
  , LoopEvent.ctxDoneAtTop ]

/-! ## C1, C6 — the backoff law and its 60-second ceiling -/

/-- C1. The spec's backoff law reads `calculateBackoff(retryCount)` =
`reconnectDelay` for retryCount = 0 and `min(2^retryCount s, 60 s)`
otherwise, for every retryCount. The code violates it: at retryCount = 34
the int64 multiplication `(1 << 34) * time.Second` overflows and the
returned delay is negative (−1266874889709551616 ns ≈ −1266.9 s), under
which `time.After` fires immediately, instead of the claimed
min(2^34 s, 60 s) = 60 s. The code's own comment ("Exponential backoff:
2^n seconds, max 60 seconds") documents the intended cap, so this is a
bug in the code, reached after 34 consecutive failures. -/
theorem backoff_law_overflows_at_34 :
    calculateBackoff 5000000000 34 = -1266874889709551616
    ∧ calculateBackoff 5000000000 34 ≠ min ((2 : Int) ^ 34 * nsPerSecond) (60 * nsPerSecond)
    ∧ calculateBackoff 5000000000 34 < 0 := by
  decide

/-- C6. The spec's ceiling boundary ("retryCount ≥ 6 all map to 60 s",
with retries unbounded) holds only for 6 ≤ retryCount ≤ 33: at
retryCount = 34 the int64 overflow makes `calculateBackoff` return a
negative duration, not 60 s. The sampled values below show the cap holding
at 6 and 33 and breaking at 34. -/
theorem backoff_ceiling_breaks_at_34 :
    calculateBackoff 5000000000 6 = 60 * nsPerSecond
    ∧ calculateBackoff 5000000000 33 = 60 * nsPerSecond
    ∧ calculateBackoff 5000000000 34 ≠ 60 * nsPerSecond := by
  decide

/-! ## C2 — shutdown and the Stopped state -/

/-- C2 counterexample. Shutdown arriving during the Reconnecting backoff
sleep takes the sleep select's `ctx.Done` branch, which returns from
`runPortForward` without `setState(StateStopped)`: the loop exits with the
record still Reconnecting, so the claim that every shutdown drives the
record to Stopped before the loop exits is false. -/
theorem shutdown_in_sleep_leaves_reconnecting :
    (runPortForward 5000000000 (initPortForward cfgEx "c1") 0
        [LoopEvent.attempt (EstablishOutcome.findPodErr "pods not found") true]).exitKind
      = ExitKind.shutdownInSleep
    ∧ (runPortForward 5000000000 (initPortForward cfgEx "c1") 0
        [LoopEvent.attempt (EstablishOutcome.findPodErr "pods not found") true]).pf.state
      = ForwardState.reconnecting
    ∧ ForwardState.reconnecting ≠ ForwardState.stopped := by
  decide

/-- C2 amended. A shutdown observed at the top of the supervisor loop
drives the record to Stopped before the loop exits; a shutdown that
interrupts the Reconnecting backoff sleep exits the loop with the record
left in Reconnecting (never Stopped). -/
theorem run_exit_state_characterization (d : Int) (pf : PortForward) (clock : Int)
    (events : List LoopEvent) :
    ((runPortForward d pf clock events).exitKind = ExitKind.stoppedAtTop →
        (runPortForward d pf clock events).pf.state = ForwardState.stopped)
    ∧ ((runPortForward d pf clock events).exitKind = ExitKind.shutdownInSleep →
        (runPortForward d pf clock events).pf.state = ForwardState.reconnecting) := by
  induction events generalizing pf clock with
  | nil => simp [runPortForward]
  | cons e rest ih =>
      cases e with
      | ctxDoneAtTop => simp [runPortForward, setState]
      | attempt o sd =>
          cases o <;> cases sd <;>
          first
            | (simp [runPortForward, establishPortForward, setState, setError, activeEntry]
               done)
            | (simp [runPortForward, establishPortForward, setState, setError, activeEntry]
               exact ih _ _)

/-! ## C3 — lastError versus the Active state -/

/-- C3 counterexample. A freshly initialized record is in Starting with
`lastError == ""` (the Go zero value), so "lastError is empty iff state is
Active" already fails at the first observable point of a record's life. -/
theorem fresh_record_breaks_lastError_iff :
    ¬(((initPortForward cfgEx "c1").error = "")
        ↔ ((initPortForward cfgEx "c1").state = ForwardState.active)) := by
  decide

/-- C3 amended. At the supervisor's loop boundaries and on every published
snapshot, Active implies an empty `lastError`; the converse direction is
false (the fresh Starting record, and a record stopped on shutdown, carry
an empty or stale `lastError` without being Active), and mid-transition
instants between the separate `setState`/`setError` lock acquisitions are
not covered. -/
theorem run_active_error_empty (d : Int) (pf : PortForward) (clock : Int)
    (events : List LoopEvent)
    (h : pf.state = ForwardState.active → pf.error = "") :
    ((runPortForward d pf clock events).pf.state = ForwardState.active →
        (runPortForward d pf clock events).pf.error = "")
    ∧ (∀ q ∈ (runPortForward d pf clock events).pubs,
        q.state = ForwardState.active → q.error = "") := by
  induction events generalizing pf clock with
  | nil => exact ⟨h, by simp [runPortForward]⟩
  | cons e rest ih =>
      cases e with
      | ctxDoneAtTop => simp [runPortForward, setState]
      | attempt o sd =>
          cases o <;> cases sd <;>
          first
            | (simp [runPortForward, establishPortForward, setState, setError, activeEntry]
               done)
            | (simp [runPortForward, establishPortForward, setState, setError, activeEntry]
               refine ih _ _ ?_
               simp)

/-- C3 amended, instantiated: the invariant holds along the demo trace
from the fresh record. -/
theorem run_active_error_empty_witness :
    (((runPortForward 5000000000 (initPortForward cfgEx "c1") 0 demoEvents).pf.state
          = ForwardState.active →
        (runPortForward 5000000000 (initPortForward cfgEx "c1") 0 demoEvents).pf.error = "")
    ∧ (∀ q ∈ (runPortForward 5000000000 (initPortForward cfgEx "c1") 0 demoEvents).pubs,
        q.state = ForwardState.active → q.error = "")) :=
  run_active_error_empty 5000000000 (initPortForward cfgEx "c1") 0 demoEvents (by decide)

/-! ## C4 — a failed probe and the reconnect path -/

/-- C4 counterexample. A failed probe of an Active tunnel cancels the
engine context (`pf.cancel()`), upon which `establishPortForward` takes the
`ctx.Done` branch and returns nil: the supervisor loops straight into the
next attempt. Over the trace "probe-cancelled attempt, then an attempt
that comes ready", the publications are Active(retryCount 0),
Active(retryCount 0) and only later Reconnecting: the supervisor never
enters Reconnecting between the probe and the successful reconnection, and
after that reconnection retryCount is 0 — not one larger than the 0 it was
before the probe. -/
theorem probe_failure_no_reconnecting_cex :
    ((runPortForward 5000000000 (initPortForward cfgEx "c1") 0
        [ LoopEvent.attempt EstablishOutcome.readyThenCtxDone false
        , LoopEvent.attempt (EstablishOutcome.readyThenErr "engine terminated") false ]).pubs.map
          fun q => (q.state, q.retryCount))
      = [ (ForwardState.active, 0), (ForwardState.active, 0), (ForwardState.reconnecting, 0) ]
    ∧ ((checkHealth recActive 100 false).2 = true
        ∧ (checkHealth recActive 100 false).1.state = ForwardState.active)
    ∧ (0 : Int) ≠ 0 + 1 := by
  decide

/-- C4 amended. A failed probe of an Active tunnel does cancel the owning
supervisor's engine (leaving the record untouched apart from `lastCheck`),
but the cancelled `establishPortForward` call returns nil, so the
supervisor re-attempts immediately without entering Reconnecting, without
setting `lastError` and without bumping `retryCount`; the attempt's only
publication is the Active snapshot with retryCount 0, so after the
subsequent successful reconnection `retryCount` is 0, exactly what it was
before the probe. -/
theorem probe_failure_reconnect_behavior (pf : PortForward) (now d clock : Int)
    (rest : List LoopEvent) (h : pf.state = ForwardState.active) :
    ((checkHealth pf now false).2 = true
      ∧ (checkHealth pf now false).1.state = ForwardState.active
      ∧ (checkHealth pf now false).1.error = pf.error
      ∧ (checkHealth pf now false).1.retryCount = pf.retryCount)
    ∧ (runPortForward d pf clock (LoopEvent.attempt EstablishOutcome.readyThenCtxDone false :: rest)).pubs
        = activeEntry pf :: (runPortForward d (activeEntry pf) clock rest).pubs
    ∧ (runPortForward d pf clock (LoopEvent.attempt EstablishOutcome.readyThenCtxDone false :: rest)).pf
        = (runPortForward d (activeEntry pf) clock rest).pf
    ∧ (activeEntry pf).state = ForwardState.active
    ∧ (activeEntry pf).retryCount = 0 := by
  refine ⟨?_, ?_, ?_, rfl, rfl⟩
  · simp [checkHealth, h]
  · simp [runPortForward, establishPortForward]
  · simp [runPortForward, establishPortForward]

/-- C4 amended, instantiated at a concrete Active record with an empty
continuation trace. -/
theorem probe_failure_reconnect_behavior_witness :
    ((checkHealth recActive 100 false).2 = true
      ∧ (checkHealth recActive 100 false).1.state = ForwardState.active
      ∧ (checkHealth recActive 100 false).1.error = recActive.error
      ∧ (checkHealth recActive 100 false).1.retryCount = recActive.retryCount)
    ∧ (runPortForward 5000000000 recActive 0 [LoopEvent.attempt EstablishOutcome.readyThenCtxDone false]).pubs
        = activeEntry recActive :: (runPortForward 5000000000 (activeEntry recActive) 0 []).pubs
    ∧ (runPortForward 5000000000 recActive 0 [LoopEvent.attempt EstablishOutcome.readyThenCtxDone false]).pf
        = (runPortForward 5000000000 (activeEntry recActive) 0 []).pf
    ∧ (activeEntry recActive).state = ForwardState.active
    ∧ (activeEntry recActive).retryCount = 0 :=
  probe_failure_reconnect_behavior recActive 100 5000000000 0 [] (by decide)

/-! ## C5 — order of side effects on the Active → Reconnecting transition -/

/-- C5 counterexample. On the Active → Reconnecting transition after an
engine error, the snapshot published on the update bus (the last
publication of the step) still carries `retryCount = 0` and the stale
`reconnectAt = 0`, while the record the supervisor carries onward has
`retryCount = 1` and `reconnectAt = now + backoff`: the bus publish happens
before the bump and the `reconnectAt` computation, so the claim's ordering
— all three updates before publishing — is false. -/
theorem reconnecting_publish_precedes_bump_cex :
    ((runPortForward 5000000000 recActive 0
          [LoopEvent.attempt (EstablishOutcome.readyThenErr "connection reset") false]).pubs.getLast?.map
        fun q => (q.state, q.retryCount, q.reconnectAt))
      = some (ForwardState.reconnecting, 0, 0)
    ∧ ((runPortForward 5000000000 recActive 0
          [LoopEvent.attempt (EstablishOutcome.readyThenErr "connection reset") false]).pf.retryCount,
       (runPortForward 5000000000 recActive 0
          [LoopEvent.attempt (EstablishOutcome.readyThenErr "connection reset") false]).pf.reconnectAt)
      = (1, 5000000000)
    ∧ ((0 : Int), (0 : Int)) ≠ ((1 : Int), (5000000000 : Int)) := by
  decide

/-- The record published on an Active/Starting → Reconnecting transition:
after `setError` and `setState(StateReconnecting)`, before the backoff
bookkeeping. -/
def reconPublished (pf : PortForward) (o : EstablishOutcome) (e : String) : PortForward :=
  setState (setError (establishPortForward pf o).1 e) ForwardState.reconnecting

/-- The record after the backoff bookkeeping that follows the publish:
`ReconnectAt = now + delay` and `RetryCount++`. -/
def reconBumped (d clock : Int) (pf : PortForward) (o : EstablishOutcome) (e : String) : PortForward :=
  { reconPublished pf o e with
      reconnectAt := clock + calculateBackoff d (reconPublished pf o e).retryCount
      retryCount := (reconPublished pf o e).retryCount + 1 }

/-- C5 amended. On every transition into Reconnecting the supervisor sets
`lastError` and the state before publishing, but bumps `retryCount` and
computes `reconnectAt` only after the publish: the published snapshot
carries the pre-bump `retryCount` and the stale `reconnectAt`, and the
bumped values exist only in the record the loop carries into the backoff
sleep. -/
theorem reconnecting_publish_then_bump (d clock : Int) (pf : PortForward)
    (o : EstablishOutcome) (rest : List LoopEvent) (e : String)
    (h : (establishPortForward pf o).2.1 = some e) :
    (runPortForward d pf clock (LoopEvent.attempt o false :: rest)).pubs
      = ((establishPortForward pf o).2.2 ++ [reconPublished pf o e])
        ++ (runPortForward d (reconBumped d clock pf o e)
              (clock + calculateBackoff d (reconPublished pf o e).retryCount) rest).pubs
    ∧ (runPortForward d pf clock (LoopEvent.attempt o false :: rest)).pf
      = (runPortForward d (reconBumped d clock pf o e)
           (clock + calculateBackoff d (reconPublished pf o e).retryCount) rest).pf
    ∧ (reconPublished pf o e).retryCount = (establishPortForward pf o).1.retryCount
    ∧ (reconPublished pf o e).reconnectAt = pf.reconnectAt
    ∧ (reconBumped d clock pf o e).retryCount = (reconPublished pf o e).retryCount + 1
    ∧ (reconBumped d clock pf o e).reconnectAt
      = clock + calculateBackoff d (reconPublished pf o e).retryCount := by
  cases o <;>
    simp_all [runPortForward, establishPortForward, reconPublished, reconBumped,
      setState, setError, activeEntry]

/-- C5 amended, instantiated at a concrete failed attempt from an Active
record. -/
theorem reconnecting_publish_then_bump_witness :
    (runPortForward 5000000000 recActive 0
        [LoopEvent.attempt (EstablishOutcome.earlyErr "dial refused") false]).pubs
      = ((establishPortForward recActive (EstablishOutcome.earlyErr "dial refused")).2.2
          ++ [reconPublished recActive (EstablishOutcome.earlyErr "dial refused") "dial refused"])
        ++ (runPortForward 5000000000
              (reconBumped 5000000000 0 recActive (EstablishOutcome.earlyErr "dial refused") "dial refused")
              (0 + calculateBackoff 5000000000
                (reconPublished recActive (EstablishOutcome.earlyErr "dial refused") "dial refused").retryCount)
              []).pubs
    ∧ (runPortForward 5000000000 recActive 0
        [LoopEvent.attempt (EstablishOutcome.earlyErr "dial refused") false]).pf
      = (runPortForward 5000000000
           (reconBumped 5000000000 0 recActive (EstablishOutcome.earlyErr "dial refused") "dial refused")
           (0 + calculateBackoff 5000000000
             (reconPublished recActive (EstablishOutcome.earlyErr "dial refused") "dial refused").retryCount)
           []).pf
    ∧ (reconPublished recActive (EstablishOutcome.earlyErr "dial refused") "dial refused").retryCount
      = (establishPortForward recActive (EstablishOutcome.earlyErr "dial refused")).1.retryCount
    ∧ (reconPublished recActive (EstablishOutcome.earlyErr "dial refused") "dial refused").reconnectAt
      = recActive.reconnectAt
    ∧ (reconBumped 5000000000 0 recActive (EstablishOutcome.earlyErr "dial refused") "dial refused").retryCount
      = (reconPublished recActive (EstablishOutcome.earlyErr "dial refused") "dial refused").retryCount + 1
    ∧ (reconBumped 5000000000 0 recActive (EstablishOutcome.earlyErr "dial refused") "dial refused").reconnectAt
      = 0 + calculateBackoff 5000000000
          (reconPublished recActive (EstablishOutcome.earlyErr "dial refused") "dial refused").retryCount :=
  reconnecting_publish_then_bump 5000000000 0 recActive
    (EstablishOutcome.earlyErr "dial refused") [] "dial refused" (by decide)

/-! ## Port conflict resolver (portconflict.go)

String helpers model the Go standard library operations the resolver uses
(`strings.Split`, `strings.TrimSpace`, `strings.Contains`,
`strings.LastIndex`, `strconv.Atoi`), implemented on character lists so
they evaluate inside the kernel. -/

/-- Go `strings.Split(s, sep)` for a one-character separator: always at
least one part. -/
def splitOnChar (c : Char) : List Char → List (List Char)
  | [] => [[]]
  | x :: xs =>
      if x = c then [] :: splitOnChar c xs
      else
        match splitOnChar c xs with
        | [] => [[x]]
        | h :: t => (x :: h) :: t

/-- Go `strings.TrimSpace`. -/
def goTrim (s : String) : String :=
  String.mk (((s.data.dropWhile Char.isWhitespace).reverse.dropWhile Char.isWhitespace).reverse)

/-- Go `strings.Contains(s, pat)`. -/
def strContains (s pat : String) : Bool :=
  (List.range (s.data.length + 1)).any fun i => List.isPrefixOf pat.data (s.data.drop i)

/-- Go `strconv.Atoi` restricted to the magnitudes that occur here (PIDs):
an optional sign followed by at least one decimal digit. -/
def goAtoi? (s : String) : Option Int :=
  let digitsVal : List Char → Option Nat := fun l =>
    if l ≠ [] ∧ l.all Char.isDigit then
      some (l.foldl (fun a c => a * 10 + (c.toNat - 48)) 0)
    else none
  match s.data with
  | '-' :: rest => (digitsVal rest).map fun n => -(n : Int)
  | '+' :: rest => (digitsVal rest).map fun n => (n : Int)
  | l => (digitsVal l).map fun n => (n : Int)

/-- The portion after the last `/`, as in
`if idx := strings.LastIndex(cmdline, "/"); idx != -1 { cmdline = cmdline[idx+1:] }`. -/
def lastPathComponent (l : List Char) : List Char :=
  (splitOnChar '/' l).getLastD l

/-- Go `pids[0]` on the (always non-empty) result of `strings.Split`. -/
def firstPart (l : List (List Char)) : List Char :=
  match l with
  | [] => []
  | h :: _ => h

/-- `getProcessName` from portconflict.go. `cmdlineRead` is the result of
`os.ReadFile("/proc/<pid>/cmdline")` (`none` = read error, mapped to the
Go error return). The command line is null-separated; the first part's
last path component is the name; an empty first part yields `"unknown"`. -/
def getProcessName (cmdlineRead : Option String) : Option String :=
  match cmdlineRead with
  | none => none
  | some data =>
      match splitOnChar '\x00' data.data with
      | [] => some "unknown"
      | p :: _ =>
          if p = [] then some "unknown"
          else some (String.mk (lastPathComponent p))

/-- `findProcessWithLsof` from portconflict.go. `lsofOutput` is the stdout
of `lsof -i :<port> -t -sTCP:LISTEN` (`none` = the command errored, which
lsof does when no process matches). Returns `(pid, name)` or the Go error;
a PID whose command line cannot be read is reported as `(pid, "unknown")`
with a nil error. -/
def findProcessWithLsof (lsofOutput : Option String) (cmdlineOf : Int → Option String) :
    Except String (Int × String) :=
  match lsofOutput with
  | none => Except.ok (0, "")
  | some out =>
      let pidStr := goTrim out
      if pidStr = "" then Except.ok (0, "")
      else
        match goAtoi? (String.mk (firstPart (splitOnChar '\n' pidStr.data))) with
        | none => Except.error "strconv.Atoi: parsing: invalid syntax"
        | some pid =>
            match getProcessName (cmdlineOf pid) with
            | none => Except.ok (pid, "unknown")
            | some name => Except.ok (pid, name)

/-- `findProcessUsingPort` from portconflict.go: try lsof, fall back to ss,
else report the port free; the returned Go error is always nil. `ssRes` is
the `(pid, name, err)` result of `findProcessWithSS`. -/
def findProcessUsingPort (lsofRes ssRes : Except String (Int × String)) : Int × String :=
  match lsofRes with
  | Except.ok (pid, name) =>
      if pid ≠ 0 then (pid, name)
      else
        match ssRes with
        | Except.ok (pid2, name2) => if pid2 ≠ 0 then (pid2, name2) else (0, "")
        | Except.error _ => (0, "")
  | Except.error _ =>
      match ssRes with
      | Except.ok (pid2, name2) => if pid2 ≠ 0 then (pid2, name2) else (0, "")
      | Except.error _ => (0, "")

/-- `checkAndKillPortConflict` from portconflict.go, given the
`findProcessUsingPort` result (its error is always nil, so the early
`if err != nil` return never fires), our own PID, and whether
`killProcess` (SIGTERM) would succeed. `Except.ok b` is the nil-error
return, with `b` = whether a termination signal was sent. -/
def checkAndKillPortConflict (port selfPid : Int) (found : Int × String) (killOk : Bool) :
    Except String Bool :=
  if found.1 = 0 then Except.ok false
  else if strContains found.2 "nanoporter" = false then
    Except.error ("port " ++ toString port ++ " is in use by non-nanoporter process: "
      ++ found.2 ++ " (PID: " ++ toString found.1 ++ ")")
  else if found.1 = selfPid then Except.ok false
  else if killOk then Except.ok true
  else Except.error ("failed to kill conflicting nanoporter process (PID "
      ++ toString found.1 ++ ")")

/-! ## C8 — the running program's own PID -/

/-- C8 counterexample. A configured port held by the program's own PID
(here 1234 = selfPid) whose process name reads as `"unknown"` makes
startup fail: the name check precedes the self-PID check, so the claim
that the resolver never fails on its own PID regardless of the name it
reads is false. -/
theorem own_pid_unknown_name_fails_cex :
    checkAndKillPortConflict 18080 1234 (1234, "unknown") true
      = Except.error "port 18080 is in use by non-nanoporter process: unknown (PID: 1234)" := by
  rfl

/-- C8 amended. The resolver takes no action (no signal, nil error) for a
port held by the program's own PID only when the process name it reads
contains `"nanoporter"`; when the name does not contain `"nanoporter"`,
the name check fires first and startup fails even for the program's own
PID. -/
theorem own_pid_needs_nanoporter_name (port pid : Int) (name : String) (killOk : Bool)
    (hname : strContains name "nanoporter" = true) (hpid : pid ≠ 0) :
    checkAndKillPortConflict port pid (pid, name) killOk = Except.ok false := by
  simp [checkAndKillPortConflict, hpid, hname]

/-- C8 amended, instantiated: our own PID under the real binary name is
left alone. -/
theorem own_pid_needs_nanoporter_name_witness :
    checkAndKillPortConflict 18080 1234 (1234, "nanoporter") true = Except.ok false :=
  own_pid_needs_nanoporter_name 18080 1234 "nanoporter" true (by decide) (by decide)

/-! ## C10 — unreadable command line means a foreign "unknown" process -/

/-- C10. When lsof yields a PID but `/proc/<pid>/cmdline` cannot be read,
`findProcessWithLsof` reports the holder as `(pid, "unknown")` with nil
error, and `checkAndKillPortConflict` fails startup naming the foreign
process `"unknown"` — whatever the holder actually is (the conclusion
holds for every `selfPid`, including `selfPid = pid`, and for every actual
identity of the holder, including a prior nanoporter instance). -/
theorem unreadable_cmdline_fails_startup (port selfPid pid : Int) (killOk : Bool)
    (out : String) (cmdlineOf : Int → Option String) (ssRes : Except String (Int × String))
    (htrim : goTrim out ≠ "")
    (hpid : goAtoi? (String.mk (firstPart (splitOnChar '\n' (goTrim out).data))) = some pid)
    (hread : cmdlineOf pid = none)
    (hnz : pid ≠ 0) :
    findProcessWithLsof (some out) cmdlineOf = Except.ok (pid, "unknown")
    ∧ checkAndKillPortConflict port selfPid
        (findProcessUsingPort (findProcessWithLsof (some out) cmdlineOf) ssRes) killOk
      = Except.error ("port " ++ toString port ++ " is in use by non-nanoporter process: "
          ++ "unknown" ++ " (PID: " ++ toString pid ++ ")") := by
  have hc : strContains "unknown" "nanoporter" = false := by decide
  have hfind : findProcessWithLsof (some out) cmdlineOf = Except.ok (pid, "unknown") := by
    simp [findProcessWithLsof, htrim, hpid, hread, getProcessName]
  refine ⟨hfind, ?_⟩
  rw [hfind]
  simp [findProcessUsingPort, checkAndKillPortConflict, hnz, hc]

/-- C10 instantiated: lsof reports PID 1234, the process table read fails,
startup aborts naming `"unknown"`. -/
theorem unreadable_cmdline_fails_startup_witness :
    findProcessWithLsof (some "1234\n") (fun _ => none) = Except.ok (1234, "unknown")
    ∧ checkAndKillPortConflict 18080 999
        (findProcessUsingPort (findProcessWithLsof (some "1234\n") (fun _ => none))
          (Except.ok (0, ""))) true
      = Except.error ("port " ++ toString (18080 : Int)
          ++ " is in use by non-nanoporter process: " ++ "unknown" ++ " (PID: "
          ++ toString (1234 : Int) ++ ")") :=
  unreadable_cmdline_fails_startup 18080 999 1234 true "1234\n" (fun _ => none)
    (Except.ok (0, "")) (by decide) (by decide) rfl (by decide)

/-! ## Pod resolver (findPod in portforward.go)

The Kubernetes API is the resolver's environment: `getPod`, `getService`
and `listPods` are the three calls `findPod` makes, each returning a value
or an error string. -/

/-- The pod fields `findPod` reads. -/
structure PodInfo where
  name : String
  phase : String
  labels : List (String × String)
deriving DecidableEq

/-- The service field `findPod` reads: `svc.Spec.Selector`. -/
structure ServiceInfo where
  selector : List (String × String)
deriving DecidableEq

/-- The three Kubernetes API calls `findPod` performs, as functions of
(namespace, name) and of (namespace, label-selector string). -/
structure ClusterEnv where
  getPod : String → String → Except String PodInfo
  getService : String → String → Except String ServiceInfo
  listPods : String → String → Except String (List PodInfo)

/-- Insertion of a string into a sorted list (for the requirement sorting
`FormatLabelSelector` performs). -/
def insertSorted (x : String) : List String → List String
  | [] => [x]
  | y :: ys => if x < y then x :: y :: ys else y :: insertSorted x ys

/-- Sort a list of strings. -/
def sortStrings (l : List String) : List String :=
  l.foldr insertSorted []

/-- `metav1.FormatLabelSelector` on a selector built from `MatchLabels`
only, as `findPod` builds it: each label renders as `key=value`, the
requirements are joined with commas in sorted order, and — the case the
claims exercise — an empty selector renders as the literal string
`"<none>"`. -/
def formatLabelSelector (matchLabels : List (String × String)) : String :=
  let s := String.intercalate "," (sortStrings (matchLabels.map fun kv => kv.1 ++ "=" ++ kv.2))
  if s = "" then "<none>" else s

/-- `findPod` from portforward.go: for `pod` kind fetch the named pod and
require phase Running; for `service` kind fetch the service, format its
selector with `FormatLabelSelector`, list pods under that selector string
and return the first Running one, else the no-running-pods error. -/
def findPod (env : ClusterEnv) (cfg : ForwardConfig) : Except String String :=
  if cfg.type = "pod" then
    match env.getPod cfg.ns cfg.service with
    | Except.error e => Except.error e
    | Except.ok pod =>
        if pod.phase ≠ "Running" then Except.error ("pod is not running: " ++ pod.phase)
        else Except.ok pod.name
  else
    match env.getService cfg.ns cfg.service with
    | Except.error e => Except.error e
    | Except.ok svc =>
        match env.listPods cfg.ns (formatLabelSelector svc.selector) with
        | Except.error e => Except.error e
        | Except.ok pods =>
            match pods.find? (fun p => p.phase = "Running") with
            | some p => Except.ok p.name
            | none => Except.error ("no running pods found for service " ++ cfg.service)

/-- A character permitted by the Kubernetes label-selector grammar in keys
and values (alphanumerics, `-`, `_`, `.`, and `/` for key prefixes). `<`
and `>` are not among them. -/
def validLabelChar (c : Char) : Bool :=
  c.isAlphanum || c = '-' || c = '_' || c = '.' || c = '/'

/-- One equality requirement `key=value` of a label selector string, or
`none` when the requirement does not parse. -/
def parseRequirement? (r : List Char) : Option (String × String) :=
  match splitOnChar '=' r with
  | [k, v] =>
      if k ≠ [] ∧ k.all validLabelChar ∧ v.all validLabelChar then
        some (String.mk k, String.mk v)
      else none
  | _ => none

/-- Parse a label selector string as a list of equality requirements
(the fragment of the Kubernetes grammar relevant here); `none` when some
requirement is invalid — in particular for `"<none>"`. -/
def parseSelector? (s : String) : Option (List (String × String)) :=
  if s = "" then some []
  else (splitOnChar ',' s.data).mapM parseRequirement?

/-- Modelled external behavior: the Kubernetes pods-list endpoint over the
pods of one namespace. The API server parses the `labelSelector` query
parameter and rejects the request when it does not parse (as it does for
`"<none>"`); otherwise it returns the pods whose labels satisfy every
requirement. -/
def k8sListPods (pods : List PodInfo) (sel : String) : Except String (List PodInfo) :=
  match parseSelector? sel with
  | none => Except.error ("unable to parse requirement: invalid label selector " ++ sel)
  | some reqs =>
      Except.ok (pods.filter fun p =>
        reqs.all fun kv => p.labels.any fun lv => lv.1 = kv.1 ∧ lv.2 = kv.2)

/-- An environment holding the service `api` in namespace `default` with
an empty selector, over an arbitrary pod population served by the modelled
list endpoint. -/
def emptySelectorEnv (pods : List PodInfo) : ClusterEnv :=
  { getPod := fun _ s => Except.error ("pods " ++ s ++ " not found")
    getService := fun n s =>
      if n = "default" ∧ s = "api" then Except.ok { selector := [] }
      else Except.error ("services " ++ s ++ " not found")
    listPods := fun _ sel => k8sListPods pods sel }

/-! ## C7 — service with an empty selector -/

/-- C7 counterexample. Resolving the service-kind forward against a
service with an empty selector fails with the List call's selector-parse
error — `FormatLabelSelector` renders the empty selector as `"<none>"`,
which is not a parsable label selector — not with the no-endpoints error
the claim names, even with a running pod present in the namespace. -/
theorem empty_selector_error_is_not_no_endpoints :
    findPod (emptySelectorEnv [{ name := "stray", phase := "Running", labels := [("app", "x")] }]) cfgEx
      = Except.error "unable to parse requirement: invalid label selector <none>"
    ∧ findPod (emptySelectorEnv [{ name := "stray", phase := "Running", labels := [("app", "x")] }]) cfgEx
      ≠ Except.error "no running pods found for service api" := by
  constructor
  · rfl
  · intro h
    rw [show findPod (emptySelectorEnv
          [{ name := "stray", phase := "Running", labels := [("app", "x")] }]) cfgEx
        = Except.error "unable to parse requirement: invalid label selector <none>" from rfl] at h
    exact absurd (Except.error.inj h) (by decide)

/-- C7 amended. For a service-kind forward whose service has an empty
selector, pod resolution fails — no pod name is ever returned — but with
the pods-List selector-parse error (the empty selector formats to
`"<none>"`), not the no-endpoints error, regardless of which pods exist in
the namespace. -/
theorem empty_selector_resolution (pods : List PodInfo) :
    formatLabelSelector [] = "<none>"
    ∧ findPod (emptySelectorEnv pods) cfgEx
      = Except.error "unable to parse requirement: invalid label selector <none>"
    ∧ ∀ nm, findPod (emptySelectorEnv pods) cfgEx ≠ Except.ok nm := by
  refine ⟨rfl, rfl, ?_⟩
  intro nm h
  rw [show findPod (emptySelectorEnv pods) cfgEx
      = Except.error "unable to parse requirement: invalid label selector <none>" from rfl] at h
  exact Except.noConfusion h

/-! ## Configuration validation (config.go) -/

/-- `ClusterConfig` from config.go. -/
structure ClusterConfig where
  name : String
  kubeconfig : String
  context : String
  forwards : List ForwardConfig
deriving DecidableEq

/-- `Config` from config.go; durations in nanoseconds. -/
structure Config where
  checkInterval : Int
  reconnectDelay : Int
  clusters : List ClusterConfig
deriving DecidableEq

/-- The `localPorts` map of `validateConfig` (port, "cluster/ns/svc"), as
an association list; Go map lookup. -/
def lookupPort (p : Int) : List (Int × String) → Option String
  | [] => none
  | q :: rest => if p = q.1 then some q.2 else lookupPort p rest

/-- Membership in the string sets (`clusterNames`, `forwardKeys`) the
validator accumulates. -/
def memStr (l : List String) (s : String) : Bool :=
  l.any fun t => t = s

/-- The inner loop of `validateConfig` over one cluster's forwards,
threading the file-global `localPorts` map and the per-cluster
`forwardKeys` set; returns the extended `localPorts` map on success. -/
def validateForwards (clusterName : String) :
    List ForwardConfig → List (Int × String) → List String → Except String (List (Int × String))
  | [], localPorts, _ => Except.ok localPorts
  | f :: rest, localPorts, forwardKeys =>
      if f.ns = "" then
        Except.error ("forward in cluster " ++ clusterName ++ " has no namespace")
      else if f.service = "" then
        Except.error ("forward in cluster " ++ clusterName ++ " has no service/pod name")
      else if memStr forwardKeys (clusterName ++ "/" ++ f.ns ++ "/" ++ f.service) then
        Except.error ("duplicate forward for service " ++ f.service ++ " in namespace "
          ++ f.ns ++ " in cluster " ++ clusterName)
      else if f.type ≠ "service" ∧ f.type ≠ "pod" then
        Except.error ("forward for " ++ f.ns ++ "/" ++ f.service ++ " in cluster "
          ++ clusterName ++ " has invalid type " ++ f.type ++ " (must be service or pod)")
      else if f.localPort < 1 ∨ 65535 < f.localPort then
        Except.error ("forward for " ++ f.ns ++ "/" ++ f.service ++ " in cluster "
          ++ clusterName ++ " has invalid local_port: " ++ toString f.localPort
          ++ " (must be 1-65535)")
      else if f.remotePort < 1 ∨ 65535 < f.remotePort then
        Except.error ("forward for " ++ f.ns ++ "/" ++ f.service ++ " in cluster "
          ++ clusterName ++ " has invalid remote_port: " ++ toString f.remotePort
          ++ " (must be 1-65535)")
      else
        match lookupPort f.localPort localPorts with
        | some existing =>
            Except.error ("local port " ++ toString f.localPort ++ " is used by both "
              ++ existing ++ " and " ++ clusterName ++ "/" ++ f.ns ++ "/" ++ f.service)
        | none =>
            validateForwards clusterName rest
              ((f.localPort, clusterName ++ "/" ++ f.ns ++ "/" ++ f.service) :: localPorts)
              ((clusterName ++ "/" ++ f.ns ++ "/" ++ f.service) :: forwardKeys)

/-- The outer loop of `validateConfig` over clusters, threading the index,
the cluster-name set and the file-global `localPorts` map. `fileExists`
models `os.Stat` on the kubeconfig path. -/
def validateClusters (fileExists : String → Bool) :
    List ClusterConfig → Nat → List String → List (Int × String) → Except String Unit
  | [], _, _, _ => Except.ok ()
  | c :: rest, i, clusterNames, localPorts =>
      if c.name = "" then
        Except.error ("cluster at index " ++ toString i ++ " has no name")
      else if memStr clusterNames c.name then
        Except.error ("duplicate cluster name: " ++ c.name)
      else if c.kubeconfig = "" then
        Except.error ("cluster " ++ c.name ++ " has no kubeconfig path")
      else if fileExists c.kubeconfig = false then
        Except.error ("kubeconfig file not found for cluster " ++ c.name ++ ": " ++ c.kubeconfig)
      else if c.forwards = [] then
        Except.error ("cluster " ++ c.name ++ " has no port-forwards configured")
      else
        match validateForwards c.name c.forwards localPorts [] with
        | Except.error e => Except.error e
        | Except.ok localPorts2 => validateClusters fileExists rest (i + 1) (c.name :: clusterNames) localPorts2

/-- `validateConfig` from config.go. -/
def validateConfig (fileExists : String → Bool) (cfg : Config) : Except String Unit :=
  if cfg.clusters = [] then Except.error "no clusters configured"
  else validateClusters fileExists cfg.clusters 0 [] []

/-- Every `local_port` of a configuration, across all clusters in order. -/
def allLocalPorts (cfg : Config) : List Int :=
  (cfg.clusters.map fun c => c.forwards.map ForwardConfig.localPort).flatten

lemma lookupPort_eq_none {p : Int} :
    ∀ {l : List (Int × String)}, lookupPort p l = none ↔ p ∉ l.map Prod.fst := by
  intro l
  induction l with
  | nil => simp [lookupPort]
  | cons q rest ih =>
      by_cases hq : p = q.1
      · simp [lookupPort, hq]
      · simp [lookupPort, hq, ih]

/-- What a successful `validateForwards` run guarantees: the forwards'
ports are pairwise distinct, in range, absent from the incoming map, and
the returned map's keys are exactly the incoming keys plus the forwards'
ports. -/
lemma validateForwards_ok {cn : String} :
    ∀ (l : List ForwardConfig) (lps : List (Int × String)) (fks : List String)
      (out : List (Int × String)),
      validateForwards cn l lps fks = Except.ok out →
      (l.map ForwardConfig.localPort).Nodup
      ∧ (∀ p ∈ l.map ForwardConfig.localPort, p ∉ lps.map Prod.fst ∧ 1 ≤ p ∧ p ≤ 65535)
      ∧ (∀ p, p ∈ out.map Prod.fst ↔ (p ∈ l.map ForwardConfig.localPort ∨ p ∈ lps.map Prod.fst)) := by
  intro l
  induction l with
  | nil =>
      intro lps fks out h
      simp only [validateForwards] at h
      cases h
      simp
  | cons f rest ih =>
      intro lps fks out h
      simp only [validateForwards] at h
      split at h
      · exact absurd h (by simp)
      split at h
      · exact absurd h (by simp)
      split at h
      · exact absurd h (by simp)
      split at h
      · exact absurd h (by simp)
      case _ hns hsvc hkey htype =>
      split at h
      · exact absurd h (by simp)
      case _ hlp =>
      split at h
      · exact absurd h (by simp)
      case _ hrp =>
      split at h
      case _ existing hex => exact absurd h (by simp)
      case _ hex =>
      rcases ih _ _ _ h with ⟨hnd, hprops, hkeys⟩
      push_neg at hlp
      have hnotin : f.localPort ∉ lps.map Prod.fst := lookupPort_eq_none.mp hex
      refine ⟨?_, ?_, ?_⟩
      · refine List.nodup_cons.mpr ⟨?_, hnd⟩
        intro hmem
        exact ((hprops _ hmem).1) (by simp)
      · intro p hp
        rcases List.mem_cons.mp hp with rfl | hp
        · exact ⟨hnotin, hlp.1, hlp.2⟩
        · have := hprops _ hp
          refine ⟨fun hin => this.1 (by simp [hin]), this.2.1, this.2.2⟩
      · intro p
        rw [hkeys p]
        simp only [List.map_cons, List.mem_cons]
        tauto

/-- What a successful `validateClusters` run guarantees: across all
remaining clusters, the ports are pairwise distinct (as one flat list),
in range, and disjoint from the incoming map's keys. -/
lemma validateClusters_ok {fe : String → Bool} :
    ∀ (cs : List ClusterConfig) (i : Nat) (names : List String) (lps : List (Int × String)),
      validateClusters fe cs i names lps = Except.ok () →
      ((cs.map fun c => c.forwards.map ForwardConfig.localPort).flatten.Nodup
       ∧ ∀ p ∈ (cs.map fun c => c.forwards.map ForwardConfig.localPort).flatten,
           p ∉ lps.map Prod.fst ∧ 1 ≤ p ∧ p ≤ 65535) := by
  intro cs
  induction cs with
  | nil => intro i names lps h; simp
  | cons c rest ih =>
      intro i names lps h
      simp only [validateClusters] at h
      split at h
      · exact absurd h (by simp)
      split at h
      · exact absurd h (by simp)
      split at h
      · exact absurd h (by simp)
      split at h
      · exact absurd h (by simp)
      split at h
      · exact absurd h (by simp)
      split at h
      case _ e heq => exact absurd h (by simp)
      case _ lps2 heq =>
      rcases validateForwards_ok _ _ _ _ heq with ⟨hnd, hprops, hkeys⟩
      rcases ih _ _ _ h with ⟨hnd2, hprops2⟩
      simp only [List.map_cons, List.flatten_cons]
      constructor
      · refine List.nodup_append.mpr ⟨hnd, hnd2, ?_⟩
        intro p hp hp2
        have := (hprops2 _ hp2).1
        rw [hkeys p] at this
        exact this (Or.inl hp)
      · intro p hp
        rcases List.mem_append.mp hp with hp | hp
        · exact hprops _ hp
        · have h1 := hprops2 _ hp
          have h2 : p ∉ lps.map Prod.fst := by
            intro hin
            exact h1.1 ((hkeys p).mpr (Or.inr hin))
          exact ⟨h2, h1.2.1, h1.2.2⟩

/-- A one-cluster configuration around a single forward's ports. -/
def oneForwardConfig (lp rp : Int) : Config :=
  { checkInterval := 10000000000
    reconnectDelay := 5000000000
    clusters :=
      [ { name := "c1", kubeconfig := "/kc/c1", context := ""
          forwards := [{ ns := "default", service := "api", type := "service",
                         localPort := lp, remotePort := rp }] } ] }

/-- Two clusters whose single forwards share local port 18080. -/
def dupPortConfig : Config :=
  { checkInterval := 10000000000
    reconnectDelay := 5000000000
    clusters :=
      [ { name := "c1", kubeconfig := "/kc/c1", context := ""
          forwards := [{ ns := "default", service := "api", type := "service",
                         localPort := 18080, remotePort := 80 }] }
      , { name := "c2", kubeconfig := "/kc/c2", context := ""
          forwards := [{ ns := "web", service := "front", type := "service",
                         localPort := 18080, remotePort := 3000 }] } ] }

/-- An `os.Stat` model under which every kubeconfig path exists. -/
def allFilesExist : String → Bool := fun _ => true

/-! ## C9 — port range and uniqueness validation -/

/-- C9. Validation accepts `local_port` (and `remote_port`) 1 and 65535,
rejects 0 and 65536 with a configuration error, and rejects any
configuration — whatever its shape — in which two forwards share a
`local_port`: a successful validation implies the flat list of all local
ports across all clusters has no duplicates (and every port is in
1..65535). -/
theorem config_port_validation :
    validateConfig allFilesExist (oneForwardConfig 1 1) = Except.ok ()
    ∧ validateConfig allFilesExist (oneForwardConfig 65535 65535) = Except.ok ()
    ∧ (∃ m, validateConfig allFilesExist (oneForwardConfig 0 80) = Except.error m)
    ∧ (∃ m, validateConfig allFilesExist (oneForwardConfig 65536 80) = Except.error m)
    ∧ (∃ m, validateConfig allFilesExist (oneForwardConfig 18080 0) = Except.error m)
    ∧ (∃ m, validateConfig allFilesExist (oneForwardConfig 18080 65536) = Except.error m)
    ∧ (∃ m, validateConfig allFilesExist dupPortConfig = Except.error m)
    ∧ (∀ (fe : String → Bool) (cfg : Config), validateConfig fe cfg = Except.ok () →
        (allLocalPorts cfg).Nodup ∧ ∀ p ∈ allLocalPorts cfg, 1 ≤ p ∧ p ≤ 65535) := by
  refine ⟨rfl, rfl, ⟨_, rfl⟩, ⟨_, rfl⟩, ⟨_, rfl⟩, ⟨_, rfl⟩, ⟨_, rfl⟩, ?_⟩
  intro fe cfg h
  simp only [validateConfig] at h
  split at h
  · exact absurd h (by simp)
  rcases validateClusters_ok _ _ _ _ h with ⟨hnd, hprops⟩
  exact ⟨hnd, fun p hp => (hprops p hp).2⟩

end Nanoporter
